import Mathlib

/-!
Shallow embedding of the resilient remote-API clients in `ado_service.py`
and `storage_service.py`: failure classification, the tenacity retry
policy wrapping `AdoService._make_request`, request-target construction,
configuration and query-parameter validation, and the storage client's
upload / listing operations.
-/

namespace Spec2Proof

/-! ## Exception model

Python exception classes relevant to `AdoService._make_request`.
The aiohttp hierarchy (from `aiohttp.client_exceptions`) is:
`ClientError` ⊃ `ClientResponseError`, and
`ClientError` ⊃ `ClientConnectionError` ⊃ `ServerConnectionError` ⊃
`ServerTimeoutError`.  The `AdoService*Error` classes derive from plain
`Exception` and are outside the aiohttp hierarchy.  Each constructor is a
leaf class; `isinstance` checks are the predicates below. -/

inductive PyExc where
  /-- a `ClientConnectionError` that is not a `ServerConnectionError`
      (e.g. connection refused / reset). -/
  | clientConnectionError
  /-- a `ServerConnectionError` that is not a `ServerTimeoutError`. -/
  | serverConnectionError
  /-- aiohttp `ServerTimeoutError` (server-side timeout). -/
  | serverTimeoutError
  /-- aiohttp `ClientResponseError` carrying its HTTP status. -/
  | clientResponseError (status : Nat)
  /-- any other `aiohttp.ClientError`. -/
  | otherClientError
  | adoServiceError (msg : String)
  | adoServiceInvalidPATError (msg : String)
  | adoServiceInvalidUrlError (msg : String)
  | adoServiceValidationError (msg : String)
  deriving DecidableEq, Repr

/-- `isinstance(e, ClientConnectionError)`. -/
def PyExc.isClientConnectionError : PyExc → Bool
  | .clientConnectionError | .serverConnectionError | .serverTimeoutError => true
  | _ => false

/-- `isinstance(e, ServerTimeoutError)`. -/
def PyExc.isServerTimeoutError : PyExc → Bool
  | .serverTimeoutError => true
  | _ => false

/-- `isinstance(e, ClientResponseError)`. -/
def PyExc.isClientResponseError : PyExc → Bool
  | .clientResponseError _ => true
  | _ => false

/-- `isinstance(e, aiohttp.ClientError)`. -/
def PyExc.isClientError : PyExc → Bool
  | .clientConnectionError | .serverConnectionError | .serverTimeoutError
  | .clientResponseError _ | .otherClientError => true
  | _ => false

/-- the `.status` attribute of a `ClientResponseError` (0 elsewhere). -/
def PyExc.respStatus : PyExc → Nat
  | .clientResponseError s => s
  | _ => 0

/-! ## Error messages (`ErrorMessages` in `ado_service.py`), with
`str.format` already applied where the code applies it. -/

def ADO_PAT_ERROR : String := "Personal Access Token might be incorrect."

def ADO_URL_ERROR : String := "ADO REST API URL might be incorrect."

/-- `ErrorMessages.ADO_HTTP_REQUEST_FAILED.format(status=...)`. -/
def adoHttpRequestFailedMsg (status : Nat) : String :=
  "ADO REST API request failed with status: " ++ toString status

def ADO_HTTP_CLIENT_ERROR : String :=
  "ADO REST API request failed due to connection issues"

def HTTP_TIMEOUT_MSG : String := "ADO REST API request timed out"

/-- `ErrorMessages.DATE_FORMAT_INVALID.format(value=...)`. -/
def dateFormatInvalidMsg (value : String) : String :=
  value ++ " is not in ISO-8601 format"

/-- `ErrorMessages.VALIDATION_ERROR.format(class_name=...)`. -/
def validationErrorMsg (class_name : String) : String :=
  class_name ++ " validation failed."

/-! ## One attempt of `AdoService._make_request` (lines 130-159)

The outcome of the underlying `self._http_session.get(...)` call and of
reading the response is the input; the attempt body classifies it. -/

/-- What the network produced on one attempt: either the GET (or response
handling) raised an exception, or a response arrived with a status and an
outcome for `await response.json()` (`.ok body` when the body decodes,
`.error e` when decoding raises, e.g. a `ContentTypeError`, which is a
`ClientResponseError`). -/
inductive HttpOutcome where
  | raises (e : PyExc)
  | response (status : Nat) (jsonResult : Except PyExc String)

/-- The `try:` block of `_make_request`: the status checks at lines
136-147.  Exceptions raised here (including the ADO errors the code
itself raises) flow to the `except` clauses. -/
def tryBody : HttpOutcome → Except PyExc String
  | .raises e => .error e
  | .response status jsonResult =>
      if status = 203 then
        .error (.adoServiceInvalidPATError ADO_PAT_ERROR)
      else if status = 404 then
        .error (.adoServiceInvalidUrlError ADO_URL_ERROR)
      else if status ≠ 200 then
        .error (.adoServiceError (adoHttpRequestFailedMsg status))
      else jsonResult

/-- The ordered `except` clauses of `_make_request` (lines 148-159).
Note the order mirrors the source: because `ServerTimeoutError` is a
subclass of `ClientConnectionError`, the `ClientConnectionError` clause
(line 152) also catches server timeouts, so the `ServerTimeoutError`
clause is unreachable.  Exceptions outside `aiohttp.ClientError` (such as
the `AdoService*Error`s raised in the `try` body) propagate unchanged. -/
def exceptClauses (e : PyExc) : PyExc :=
  if e.isClientResponseError then
    .adoServiceError (adoHttpRequestFailedMsg e.respStatus)
  else if e.isClientConnectionError then
    .adoServiceError ADO_HTTP_CLIENT_ERROR
  else if e.isServerTimeoutError then
    .adoServiceError HTTP_TIMEOUT_MSG
  else if e.isClientError then
    .adoServiceError ADO_HTTP_CLIENT_ERROR
  else e

/-- One full attempt of `_make_request`: the `try` body with the `except`
clauses around it. -/
def makeRequestAttempt (o : HttpOutcome) : Except PyExc String :=
  match tryBody o with
  | .ok v => .ok v
  | .error e => .error (exceptClauses e)

/-! ## The tenacity retry policy (decorator at lines 126-129)

`retry(stop=stop_after_attempt(3), wait=..., retry=
retry_if_exception_type(ClientConnectionError) |
retry_if_exception_type(ServerTimeoutError))`.
Tenacity semantics (tenacity/__init__.py): after an attempt raising `e`,
if the retry predicate rejects `e` the exception is re-raised unchanged;
if it accepts `e` but the stop condition (`attempt_number >= 3`) holds, a
`RetryError` wrapping the last attempt is raised (default
`reraise=False`); otherwise the call is retried. -/

/-- The decorator's retry predicate. -/
def tenacityShouldRetry (e : PyExc) : Bool :=
  e.isClientConnectionError || e.isServerTimeoutError

/-- What the wrapped call ultimately does. -/
inductive RetryResult where
  | ok (v : String)
  /-- the attempt's exception, re-raised unchanged (predicate rejected it). -/
  | raised (e : PyExc)
  /-- tenacity `RetryError` wrapping the last attempt (budget exhausted). -/
  | retryError (last : PyExc)
  deriving DecidableEq, Repr

/-- The tenacity attempt loop.  `outcomes n` is what the network does on
attempt number `n` (1-based); `fuel` bounds the recursion and is started
at the attempt budget.  Returns the final result and the number of the
last attempt made. -/
def tenacityGo (outcomes : Nat → HttpOutcome) (attemptNumber fuel : Nat) :
    RetryResult × Nat :=
  match makeRequestAttempt (outcomes attemptNumber) with
  | .ok v => (.ok v, attemptNumber)
  | .error e =>
      if tenacityShouldRetry e then
        if attemptNumber < 3 then
          match fuel with
          | 0 => (.retryError e, attemptNumber)
          | fuel' + 1 => tenacityGo outcomes (attemptNumber + 1) fuel'
        else (.retryError e, attemptNumber)
      else (.raised e, attemptNumber)

/-- `_make_request` as seen by callers: the attempt body wrapped by the
retry decorator.  Returns the result and how many attempts were made. -/
def makeRequest (outcomes : Nat → HttpOutcome) : RetryResult × Nat :=
  tenacityGo outcomes 1 3

/-! ## Request-target construction (`get_pull_requests`, lines 115-124)

The f-string interpolates `self._base_address`, a pydantic-v2 `HttpUrl`.
`str()` of a pydantic-v2 URL is the *normalized* URL produced by
pydantic-core: in particular a URL whose path is empty gains a trailing
`/`.  `pydanticHttpUrlStr` models that normalization, restricted to the
trailing-slash rule — the only normalization that acts on the
already-lowercase, port-free, percent-free inputs considered here. -/

/-- Split a character list at the first `://`, returning the part before
it and the part after it. -/
def splitSchemeAux : List Char → List Char → Option (List Char × List Char)
  | acc, ':' :: '/' :: '/' :: rest => some (acc.reverse, rest)
  | acc, c :: rest => splitSchemeAux (c :: acc) rest
  | _, [] => none

/-- Modelled from pydantic v2 URL string conversion: append `/` when the
part after `scheme://` contains no `/` (empty path). -/
def pydanticHttpUrlStr (s : String) : String :=
  match splitSchemeAux [] s.toList with
  | some (_, rest) => if rest.contains '/' then s else s ++ "/"
  | none => s

/-- `AdoServiceConfiguration` (lines 33-37).  `base_address` holds the
raw string given for the `HttpUrl` field; the string form the f-strings
see is `pydanticHttpUrlStr base_address`.  `personal_access_token` is the
`SecretStr` value; `http_timeout` defaults to 60. -/
structure AdoServiceConfiguration where
  base_address : String
  organization_name : String
  personal_access_token : String
  http_timeout : Int := 60

/-- `RepositoryContext` (lines 40-42). -/
structure RepositoryContext where
  repository_name : String
  project_name : String

/-- `PullRequestQueryParameters` (lines 44-47), after validation. -/
structure PullRequestQueryParameters where
  top : Int := 1000
  min_time : String
  max_time : String

/-- The URL built by `get_projects` (lines 90-95). -/
def get_projects_url (config : AdoServiceConfiguration) : String :=
  pydanticHttpUrlStr config.base_address ++ "/" ++ config.organization_name
    ++ "/" ++ "_apis/projects?api-version=7.1-preview.1"

/-- The URL built by `get_pull_requests` (lines 115-122). -/
def get_pull_requests_url (config : AdoServiceConfiguration)
    (context : RepositoryContext) (query_params : PullRequestQueryParameters) :
    String :=
  pydanticHttpUrlStr config.base_address ++ "/" ++ config.organization_name
    ++ "/" ++ context.project_name
    ++ "/_apis/git/repositories/"
    ++ context.repository_name
    ++ "/pullrequests?api-version=7.1-preview.1&"
    ++ "$top=" ++ toString query_params.top ++ "&"
    ++ "searchCriteria.status=All&"
    ++ "searchCriteria.minTime=" ++ query_params.min_time ++ "&"
    ++ "searchCriteria.maxTime=" ++ query_params.max_time

/-! ## Timeouts

The session is created with `ClientTimeout(config.http_timeout)` (lines
80-82; the first positional parameter of `ClientTimeout` is `total`),
while every request made by `_make_request` — hence by `get_projects` and
`get_pull_requests` — passes `timeout=aiohttp.ClientTimeout(total=10)`
(lines 132-134), a fixed constant that overrides the session default. -/

/-- The session-level default total timeout (line 82). -/
def sessionDefaultTimeout (config : AdoServiceConfiguration) : Int :=
  config.http_timeout

/-- The per-request total timeout passed at line 134. -/
def perRequestTimeout (_config : AdoServiceConfiguration) : Int := 10

/-! ## Backoff waits

The decorator's wait is `wait_exponential_jitter(jitter=1, initial=4,
max=10)`.  Modelled from tenacity `wait.py`: with `exp_base` left at its
default of 2, the wait before the attempt numbered `attempt_number + 1`
is `max(0, min(initial * exp_base ** (attempt_number - 1) + u, max))`
where `u` is drawn uniformly from `[0, jitter]`.

The storage client (storage_service.py lines 34-37) configures azure
`ExponentialRetry(initial_backoff=10, increment_base=4, retry_total=3)`.
Modelled from azure-storage `policies.py`: `get_backoff_time` computes
`backoff = initial_backoff + (0 if count == 0 else increment_base **
count)` and draws uniformly from `[backoff - 3, backoff + 3]` (clamping
the lower end at 0 when `backoff <= 3`; `random_jitter_range` default 3),
where `count` is the number of retries already made. -/

/-- tenacity `wait_exponential_jitter.__call__`, with the jitter draw
`jitterSample ∈ [0, jitter]` made explicit. -/
def tenacityWaitExponentialJitter (initial maxWait _jitter : ℚ) (expBase : ℚ)
    (attemptNumber : Nat) (jitterSample : ℚ) : ℚ :=
  max 0 (min (initial * expBase ^ (attemptNumber - 1) + jitterSample) maxWait)

/-- The ADO client's wait, as configured at line 127 (tenacity default
`exp_base = 2`). -/
def adoRetryWait (attemptNumber : Nat) (jitterSample : ℚ) : ℚ :=
  tenacityWaitExponentialJitter 4 10 1 2 attemptNumber jitterSample

/-- azure `ExponentialRetry.get_backoff_time` deterministic part for the
storage client's configuration. -/
def storageBackoffCenter (count : Nat) : ℚ :=
  10 + (if count = 0 then 0 else 4 ^ count)

/-- The interval azure draws the storage client's backoff from, before
the `count`-th retry. -/
def storageBackoffRange (count : Nat) : ℚ × ℚ :=
  (if storageBackoffCenter count > 3 then storageBackoffCenter count - 3 else 0,
   storageBackoffCenter count + 3)

/-! ## Model of `dateutil.parser.isoparse`

Modelled from `dateutil/parser/isoparser.py` (the default parser with
separator `T`).  Restrictions of the model, each noted against the
library: `int()` of a slice is modelled as digit-only (the library's
`int()` would also tolerate stray signs/whitespace inside a slice); the
"uncommon" ISO week-date branch (`YYYY-Www[-D]`) is not modelled, so the
model rejects week-date strings the library accepts.  Every other rule —
component lengths, separator consistency, the fraction regex, the
time-zone grammar and its length set, the hour-24 rule, and Python
`datetime` range validation — follows the library code. -/

/-- A parsed `datetime.datetime` value. -/
structure PyDateTime where
  year : Nat
  month : Nat
  day : Nat
  hour : Nat
  minute : Nat
  second : Nat
  microsecond : Nat
  /-- UTC offset in minutes; `none` for a naive datetime. -/
  tzOffsetMinutes : Option Int
  deriving DecidableEq, Repr

def digitVal (c : Char) : Option Nat :=
  if c.isDigit then some (c.toNat - 48) else none

def parseDigitsAux : Nat → Nat → List Char → Option (Nat × List Char)
  | 0, acc, cs => some (acc, cs)
  | n + 1, acc, c :: cs =>
      match digitVal c with
      | some d => parseDigitsAux n (acc * 10 + d) cs
      | none => none
  | _ + 1, _, [] => none

/-- `int()` of exactly `n` leading characters, all digits, returning the
rest of the input. -/
def parseDigits (n : Nat) (cs : List Char) : Option (Nat × List Char) :=
  parseDigitsAux n 0 cs

/-- `int()` of a whole remaining slice: nonempty and all digits. -/
def parseAllDigits (cs : List Char) : Option Nat :=
  if cs.isEmpty then none
  else
    match parseDigits cs.length cs with
    | some (v, _) => some v
    | none => none

/-- `int(timestr[pos:pos + 2])`: two digits normally; when exactly one
character remains, one digit. -/
def parseTimeComp : List Char → Option (Nat × List Char)
  | [] => none
  | [c] => (digitVal c).map (fun d => (d, []))
  | c1 :: c2 :: rest =>
      match digitVal c1, digitVal c2 with
      | some a, some b => some (a * 10 + b, rest)
      | _, _ => none

/-- the time-zone boundary characters `-+Zz` of `_parse_isotime`. -/
def isTzStart (c : Char) : Bool :=
  c = '-' || c = '+' || c = 'Z' || c = 'z'

/-- Modelled from `isoparser._parse_tzstr` (UTC offset in minutes). -/
def parseTzStr (cs : List Char) : Option Int :=
  if cs = ['Z'] ∨ cs = ['z'] then some 0
  else if ¬(cs.length = 3 ∨ cs.length = 5 ∨ cs.length = 6) then none
  else
    match cs with
    | sign :: h1 :: h2 :: rest =>
        if sign ≠ '-' ∧ sign ≠ '+' then none
        else
          match digitVal h1, digitVal h2 with
          | some a, some b =>
              let hours := a * 10 + b
              let minutes? :=
                if rest.isEmpty then some 0
                else
                  match rest with
                  | ':' :: ms => parseAllDigits ms
                  | ms => parseAllDigits ms
              match minutes? with
              | none => none
              | some minutes =>
                  if hours = 0 ∧ minutes = 0 then some 0
                  else if 59 < minutes ∨ 23 < hours then none
                  else
                    some ((if sign = '-' then (-1 : Int) else 1)
                      * ((hours * 60 + minutes : Nat) : Int))
          | _, _ => none
    | _ => none

def digitsVal (ds : List Char) : Nat :=
  ds.foldl (fun acc c => acc * 10 + (digitVal c).getD 0) 0

/-- The `_FRACTION_REGEX` step (`[.,]([0-9]+)`): microseconds from the
first six fractional digits, consuming the whole match; `none` means the
regex did not match (the loop then moves on without consuming). -/
def parseFraction (cs : List Char) : Option (Nat × List Char) :=
  match cs with
  | sep :: rest =>
      if sep = '.' ∨ sep = ',' then
        let ds := rest.takeWhile (fun c => c.isDigit)
        let rest' := rest.dropWhile (fun c => c.isDigit)
        if ds.isEmpty then none
        else
          let ds6 := ds.take 6
          some (digitsVal ds6 * 10 ^ (6 - ds6.length), rest')
      else none
  | [] => none

/-- Loop iterations `comp ≥ 4` of `_parse_isotime`: only a time-zone
boundary may remain; any other leftover input is "Unused components". -/
def parseTimeTail (h m s us : Nat) (cs : List Char) :
    Option (Nat × Nat × Nat × Nat × Option Int) :=
  match cs with
  | [] => some (h, m, s, us, none)
  | c :: _ =>
      if isTzStart c then
        (parseTzStr cs).map (fun tz => (h, m, s, us, some tz))
      else none

/-- Loop iteration `comp = 3` of `_parse_isotime`: optional fraction. -/
def parseTimeFrac (h m s : Nat) (cs : List Char) :
    Option (Nat × Nat × Nat × Nat × Option Int) :=
  match cs with
  | [] => some (h, m, s, 0, none)
  | c :: _ =>
      if isTzStart c then
        (parseTzStr cs).map (fun tz => (h, m, s, 0, some tz))
      else
        match parseFraction cs with
        | some (us, rest) => parseTimeTail h m s us rest
        | none => parseTimeTail h m s 0 cs

/-- Loop iteration `comp = 2` of `_parse_isotime`: the second; when a
colon separated hour and minute, a colon is mandatory here too. -/
def parseTimeSecond (hasSep : Bool) (h m : Nat) (cs : List Char) :
    Option (Nat × Nat × Nat × Nat × Option Int) :=
  match cs with
  | [] => some (h, m, 0, 0, none)
  | c :: rest =>
      if isTzStart c then
        (parseTzStr cs).map (fun tz => (h, m, 0, 0, some tz))
      else
        match (if hasSep then (if c = ':' then some rest else none)
               else some (c :: rest)) with
        | none => none
        | some cs' =>
            match parseTimeComp cs' with
            | none => none
            | some (s, rest2) => parseTimeFrac h m s rest2

/-- Loop iteration `comp = 1` of `_parse_isotime`: the minute, with an
optional colon separator. -/
def parseTimeMinute (h : Nat) (cs : List Char) :
    Option (Nat × Nat × Nat × Nat × Option Int) :=
  match cs with
  | [] => some (h, 0, 0, 0, none)
  | c :: rest =>
      if isTzStart c then
        (parseTzStr cs).map (fun tz => (h, 0, 0, 0, some tz))
      else
        let hasSep := c = ':'
        match parseTimeComp (if hasSep then rest else c :: rest) with
        | none => none
        | some (m, rest2) => parseTimeSecond hasSep h m rest2

/-- Modelled from `isoparser._parse_isotime` (hour, minute, second,
microsecond, optional offset in minutes). -/
def parseIsoTime (cs : List Char) :
    Option (Nat × Nat × Nat × Nat × Option Int) :=
  if cs.length < 2 then none
  else
    match cs with
    | [] => none
    | c :: _ =>
        match (if isTzStart c then
                 (parseTzStr cs).map (fun tz => (0, 0, 0, 0, some tz))
               else
                 match parseTimeComp cs with
                 | none => none
                 | some (h, rest) => parseTimeMinute h rest) with
        | none => none
        | some (h, m, s, us, tz) =>
            if h = 24 ∧ ¬(m = 0 ∧ s = 0 ∧ us = 0) then none
            else some (h, m, s, us, tz)

/-- Modelled from `isoparser._parse_isodate_common`: the calendar-date
grammar `YYYY`, `YYYY-MM`, `YYYY-MM-DD`, `YYYYMMDD`, returning the
remaining input. -/
def parseIsoDate (cs : List Char) : Option ((Nat × Nat × Nat) × List Char) :=
  match parseDigits 4 cs with
  | none => none
  | some (y, rest) =>
      match rest with
      | [] => some ((y, 1, 1), [])
      | c :: rest1 =>
          let hasSep := c = '-'
          match parseDigits 2 (if hasSep then rest1 else c :: rest1) with
          | none => none
          | some (m, rest3) =>
              match rest3 with
              | [] => if hasSep then some ((y, m, 1), []) else none
              | c2 :: rest4 =>
                  match (if hasSep then (if c2 = '-' then some rest4 else none)
                         else some (c2 :: rest4)) with
                  | none => none
                  | some rest5 =>
                      match parseDigits 2 rest5 with
                      | none => none
                      | some (d, rest6) => some ((y, m, d), rest6)

def isLeapYear (y : Nat) : Bool :=
  decide (y % 4 = 0 ∧ (y % 100 ≠ 0 ∨ y % 400 = 0))

def daysInMonth (y m : Nat) : Nat :=
  if m = 2 then (if isLeapYear y then 29 else 28)
  else if m = 4 ∨ m = 6 ∨ m = 9 ∨ m = 11 then 30
  else 31

/-- the range checks `datetime.datetime` performs on its date fields. -/
def validDate (y m d : Nat) : Bool :=
  decide (1 ≤ y ∧ y ≤ 9999 ∧ 1 ≤ m ∧ m ≤ 12 ∧ 1 ≤ d ∧ d ≤ daysInMonth y m)

/-- the range checks `datetime.datetime` performs on its time fields. -/
def validTime (h mi s us : Nat) : Bool :=
  decide (h ≤ 23 ∧ mi ≤ 59 ∧ s ≤ 59 ∧ us ≤ 999999)

/-- `datetime + timedelta(days=1)`, failing on `datetime.max` overflow. -/
def nextDay (y m d : Nat) : Option (Nat × Nat × Nat) :=
  if d < daysInMonth y m then some (y, m, d + 1)
  else if m < 12 then some (y, m + 1, 1)
  else if y < 9999 then some (y + 1, 1, 1)
  else none

/-- Modelled from `isoparser.isoparse`: parse the date, then — only
after a `T` — the time; reject leftover input; apply the hour-24
midnight wrap; validate ranges as `datetime.datetime` would. -/
def isoparse (s : String) : Option PyDateTime :=
  match parseIsoDate s.toList with
  | none => none
  | some ((y, m, d), rest) =>
      match rest with
      | [] => if validDate y m d then some ⟨y, m, d, 0, 0, 0, 0, none⟩ else none
      | 'T' :: timecs =>
          match parseIsoTime timecs with
          | none => none
          | some (h, mi, sec, us, tz) =>
              if h = 24 then
                if validDate y m d then
                  match nextDay y m d with
                  | some (y2, m2, d2) => some ⟨y2, m2, d2, 0, mi, sec, us, tz⟩
                  | none => none
                else none
              else if validDate y m d && validTime h mi sec us then
                some ⟨y, m, d, h, mi, sec, us, tz⟩
              else none
      | _ => none

/-- Days since 1970-01-01 in the proleptic Gregorian calendar (the
standard civil-from-days algorithm; used only on valid dates, where all
intermediate divisions are of nonnegative values). -/
def daysFromCivil (y m d : Int) : Int :=
  let y' := if m ≤ 2 then y - 1 else y
  let era := y' / 400
  let yoe := y' - era * 400
  let mp := (m + 9) % 12
  let doy := (153 * mp + 2) / 5 + d - 1
  let doe := yoe * 365 + yoe / 4 - yoe / 100 + doy
  era * 146097 + doe - 719468

/-- The instant of a parsed datetime, in microseconds since the epoch
(naive datetimes taken at offset 0). -/
def PyDateTime.toUtcMicros (dt : PyDateTime) : Int :=
  ((((daysFromCivil (dt.year : Int) (dt.month : Int) (dt.day : Int)) * 24
        + (dt.hour : Int)) * 60 + (dt.minute : Int)) * 60
      + (dt.second : Int)) * 1000000 + (dt.microsecond : Int)
    - (dt.tzOffsetMinutes.getD 0) * 60 * 1000000

/-- Both strings parse and `a`'s instant is strictly later than `b`'s. -/
def laterThanISO (a b : String) : Bool :=
  match isoparse a, isoparse b with
  | some x, some y => decide (y.toUtcMicros < x.toUtcMicros)
  | _, _ => false

/-- `Except.isOk` as a plain definition. -/
def exceptOk {ε α : Type} : Except ε α → Bool
  | .ok _ => true
  | .error _ => false

/-- Construction of `PullRequestQueryParameters` (lines 44-57): pydantic
runs the `check_iso8601_format` validator on `min_time`, then on
`max_time`.  `AdoServiceValidationError` is not a `ValueError`, so the
first failing field's exception propagates directly out of the
constructor.  No validator compares the two timestamps. -/
def mkPullRequestQueryParameters (top : Int) (min_time max_time : String) :
    Except PyExc PullRequestQueryParameters :=
  if (isoparse min_time).isNone then
    .error (.adoServiceValidationError (dateFormatInvalidMsg min_time))
  else if (isoparse max_time).isNone then
    .error (.adoServiceValidationError (dateFormatInvalidMsg max_time))
  else .ok ⟨top, min_time, max_time⟩

/-! ## pydantic validation of `AdoServiceConfiguration` -/

/-- Raw input for `AdoServiceConfiguration`: `none` models an absent
field (e.g. an unset environment variable arriving as Python `None`). -/
structure RawAdoConfig where
  base_address : Option String
  organization_name : Option String
  personal_access_token : Option String
  http_timeout : Option Int

/-- One entry of a pydantic `ValidationError`, naming the offending
field and, for a malformed URL, the offending input. -/
inductive ConfigFieldError where
  | missing (field : String)
  | invalidUrl (field : String) (input : String)
  deriving DecidableEq, Repr

/-- Modelled from pydantic v2 `HttpUrl` validation, restricted to what
the claims exercise: scheme `http`/`https` followed by `://` (appearing
once) and a nonempty host. -/
def isValidHttpUrl (s : String) : Bool :=
  match splitSchemeAux [] s.toList with
  | some (scheme, rest) =>
      (scheme == "http".toList || scheme == "https".toList) &&
      !((rest.takeWhile (fun c => c != '/' && c != '?' && c != '#')).isEmpty)
  | none => false

/-- The list of field errors pydantic collects for a raw
`AdoServiceConfiguration` input, in field-declaration order. -/
def configFieldErrors (raw : RawAdoConfig) : List ConfigFieldError :=
  (match raw.base_address with
   | none => [ConfigFieldError.missing "base_address"]
   | some u =>
       if isValidHttpUrl u then []
       else [ConfigFieldError.invalidUrl "base_address" u]) ++
  (match raw.organization_name with
   | none => [ConfigFieldError.missing "organization_name"]
   | some _ => []) ++
  (match raw.personal_access_token with
   | none => [ConfigFieldError.missing "personal_access_token"]
   | some _ => [])

/-- pydantic validation of `AdoServiceConfiguration` (lines 33-37) from
raw input: the three required fields must be present, `base_address`
must be a valid HTTP URL, and `http_timeout` defaults to 60.  All field
errors are collected into one `ValidationError`.  The validator is a
pure function — it performs no I/O — and `AdoService.__init__` only
creates its `aiohttp.ClientSession` (lines 80-82) after validation has
succeeded, so no transport session exists unless this returns `.ok`. -/
def validateAdoServiceConfiguration (raw : RawAdoConfig) :
    Except (List ConfigFieldError) AdoServiceConfiguration :=
  match raw.base_address, raw.organization_name, raw.personal_access_token with
  | some b, some o, some p =>
      if isValidHttpUrl b then .ok ⟨b, o, p, raw.http_timeout.getD 60⟩
      else .error (configFieldErrors raw)
  | _, _, _ => .error (configFieldErrors raw)

/-! ## Storage client (`storage_service.py`) -/

def MISSING_CONNECTION_STRING : String := "Specify a connection string"

def MISSING_CONTAINER_NAME : String := "Specify a container name"

inductive StorageExc where
  | storageServiceArgumentError (msg : String)
  | storageServiceValidationError (msg : String)
  deriving DecidableEq, Repr

/-- `BlobUploadContext` (lines 17-20). -/
structure BlobUploadContext where
  content : String
  blob_name : String
  container_name : String

/-- Remote blob-store state: which containers exist, and blob contents
keyed by (container, blob). -/
structure StorageState where
  containers : List String
  blobs : List ((String × String) × String)

/-- How many remote calls of each kind one operation made. -/
structure UploadTrace where
  existsCalls : Nat
  createContainerCalls : Nat
  uploadCalls : Nat
  deriving DecidableEq, Repr

def StorageState.getBlob (st : StorageState) (c b : String) : Option String :=
  (st.blobs.find? (fun e => e.1 == (c, b))).map (fun e => e.2)

/-- `StorageService.upload_string` (lines 49-66) against remote state
`st`: one `container_client.exists()` check; `create_container()` only
when the container is absent; then `upload_blob(content,
overwrite=True)` — last write wins.  Returns the new remote state, the
call trace, and the (opaque) upload receipt. -/
def upload_string (st : StorageState) (ctx : BlobUploadContext) :
    StorageState × UploadTrace × String :=
  let containerExists := st.containers.contains ctx.container_name
  let st1 :=
    if containerExists then st
    else { st with containers := ctx.container_name :: st.containers }
  let creates := if containerExists then 0 else 1
  let key := (ctx.container_name, ctx.blob_name)
  let st2 := { st1 with
    blobs := (key, ctx.content) :: st1.blobs.filter (fun e => e.1 != key) }
  (st2, ⟨1, creates, 1⟩, "upload-receipt")

/-- `StorageService.list_blobs` (lines 68-77): `remote c` is the listing
the service returns for container `c`, in service order; the async
generator forwards it item by item.  The result pairs the outcome with
the number of remote listing calls made: a `None` container name raises
`StorageServiceArgumentError` before any remote call. -/
def list_blobs (remote : String → List String)
    (container_name : Option String) :
    Except StorageExc (List String) × Nat :=
  match container_name with
  | none => (.error (.storageServiceArgumentError MISSING_CONTAINER_NAME), 0)
  | some c => (.ok (remote c), 1)

/-! ## Theorems -/

/-- Exceptions that have passed through the `except` clauses are never
aiohttp exceptions, so the retry predicate always rejects them. -/
theorem shouldRetry_exceptClauses (e : PyExc) :
    tenacityShouldRetry (exceptClauses e) = false := by
  cases e <;> rfl

/-- Every error escaping one attempt of `_make_request` is rejected by
the retry predicate. -/
theorem makeRequestAttempt_error_not_retryable (o : HttpOutcome) (e : PyExc)
    (h : makeRequestAttempt o = .error e) :
    tenacityShouldRetry e = false := by
  unfold makeRequestAttempt at h
  cases htb : tryBody o with
  | ok v => rw [htb] at h; cases h
  | error e' =>
      rw [htb] at h
      injection h with h'
      rw [← h']
      exact shouldRetry_exceptClauses e'

/-- C1: the claim says connection failures and server timeouts are
retried up to 2 additional times and the last classified failure is then
surfaced unchanged.  In the code the `except` clauses of `_make_request`
convert every `ClientConnectionError`/`ServerTimeoutError` into an
`AdoServiceError` *inside* the wrapped function, so the decorator's
predicate `retry_if_exception_type(ClientConnectionError) |
retry_if_exception_type(ServerTimeoutError)` never matches: every call
makes exactly one attempt, and a permanent connection failure surfaces
as the wrapped `AdoServiceError` after a single attempt. -/
theorem c1_no_retry_ever :
    (∀ outcomes : Nat → HttpOutcome, (makeRequest outcomes).2 = 1) ∧
    makeRequest (fun _ => .raises .clientConnectionError)
      = (.raised (.adoServiceError ADO_HTTP_CLIENT_ERROR), 1) := by
  constructor
  · intro outcomes
    unfold makeRequest tenacityGo
    cases h : makeRequestAttempt (outcomes 1) with
    | ok v => simp
    | error e => simp [makeRequestAttempt_error_not_retryable _ _ h]
  · rfl

set_option maxRecDepth 40000 in
/-- C2 counterexample: for the claimed scenario the request target built
by `get_pull_requests` is not the claimed string — pydantic v2
normalizes the `HttpUrl` `https://dev.example.org` to
`https://dev.example.org/`, so the f-string produces a double slash
before the organization segment. -/
theorem c2_request_target_counterexample :
    get_pull_requests_url
        ⟨"https://dev.example.org", "acme", "abc", 60⟩ ⟨"R", "P"⟩
        ⟨1000, "2024-03-01T00:00:00Z", "2024-09-01T00:00:00Z"⟩
      ≠ "https://dev.example.org/acme/P/_apis/git/repositories/R/pullrequests?api-version=7.1-preview.1&$top=1000&searchCriteria.status=All&searchCriteria.minTime=2024-03-01T00:00:00Z&searchCriteria.maxTime=2024-09-01T00:00:00Z" := by
  decide

set_option maxRecDepth 40000 in
/-- C2 amended: for the claimed scenario the request target equals the
claimed string except for a double slash between the endpoint and the
organization segment (`.org//acme`). -/
theorem c2_request_target_amended :
    get_pull_requests_url
        ⟨"https://dev.example.org", "acme", "abc", 60⟩ ⟨"R", "P"⟩
        ⟨1000, "2024-03-01T00:00:00Z", "2024-09-01T00:00:00Z"⟩
      = "https://dev.example.org//acme/P/_apis/git/repositories/R/pullrequests?api-version=7.1-preview.1&$top=1000&searchCriteria.status=All&searchCriteria.minTime=2024-03-01T00:00:00Z&searchCriteria.maxTime=2024-09-01T00:00:00Z" := by
  decide

/-- C3: a response with HTTP status 203 makes the attempt raise
`AdoServiceInvalidPATError`, which the retry predicate rejects, so
exactly one attempt is made and the error surfaces unchanged. -/
theorem c3_status_203_one_attempt (outcomes : Nat → HttpOutcome)
    (j : Except PyExc String) (h : outcomes 1 = .response 203 j) :
    makeRequest outcomes
      = (.raised (.adoServiceInvalidPATError ADO_PAT_ERROR), 1) := by
  unfold makeRequest tenacityGo
  rw [h]
  rfl

/-- C3 witness: the theorem evaluated at a concrete outcome stream whose
first response has status 203. -/
theorem c3_status_203_one_attempt_witness :
    makeRequest (fun _ => .response 203 (.ok "{}"))
      = (.raised (.adoServiceInvalidPATError ADO_PAT_ERROR), 1) :=
  c3_status_203_one_attempt (fun _ => .response 203 (.ok "{}")) (.ok "{}") rfl

/-- C4 counterexample: before attempt 2 the HTTP client's wait can be 5
seconds (jitter sample 1), strictly above the claimed upper bound
`min(initial * growth_factor^(n-2), max) = min(4 * 4^0, 10) = 4`:
tenacity's `wait_exponential_jitter` uses growth base 2 (its default
`exp_base`, which the code does not override) and adds the jitter before
applying the cap. -/
theorem c4_backoff_counterexample :
    adoRetryWait 1 1 = 5 ∧ min ((4 : ℚ) * 4 ^ (2 - 2 : ℕ)) 10 = 4 ∧
      ¬((5 : ℚ) ≤ 4) := by
  refine ⟨?_, by norm_num, by norm_num⟩
  norm_num [adoRetryWait, tenacityWaitExponentialJitter]

/-- C4 amended: before attempt `n` (n ≥ 2) the HTTP client's wait is
bounded by `min(4 * 2^(n-2) + 1, 10)` for every admissible jitter sample
and attains that bound at jitter sample 1; the storage client's azure
`ExponentialRetry(initial_backoff=10, increment_base=4)` draws the
backoff before its `k`-th retry from the additive window
`[7 + 4^k, 13 + 4^k]`. -/
theorem c4_backoff_amended (n : Nat) (hn : 2 ≤ n) :
    (∀ j : ℚ, 0 ≤ j → j ≤ 1 →
        adoRetryWait (n - 1) j ≤ min (4 * 2 ^ (n - 2) + 1) 10) ∧
    adoRetryWait (n - 1) 1 = min (4 * 2 ^ (n - 2) + 1) 10 ∧
    (∀ k : Nat, 1 ≤ k → storageBackoffRange k = (7 + 4 ^ k, 13 + 4 ^ k)) := by
  have hidx : n - 1 - 1 = n - 2 := by omega
  have hA : (0 : ℚ) ≤ 4 * 2 ^ (n - 2) := by positivity
  refine ⟨?_, ?_, ?_⟩
  · intro j hj0 hj1
    unfold adoRetryWait tenacityWaitExponentialJitter
    rw [hidx]
    apply max_le
    · exact le_min (by linarith) (by norm_num)
    · exact min_le_min (by linarith) le_rfl
  · unfold adoRetryWait tenacityWaitExponentialJitter
    rw [hidx]
    exact max_eq_right (le_min (by linarith) (by norm_num))
  · intro k hk
    have hk0 : k ≠ 0 := by omega
    have h4 : (4 : ℚ) ≤ 4 ^ k := by
      calc (4 : ℚ) = 4 ^ 1 := (pow_one 4).symm
        _ ≤ 4 ^ k := pow_le_pow_right₀ (by norm_num) hk
    unfold storageBackoffRange storageBackoffCenter
    rw [if_neg hk0, if_pos (by linarith)]
    exact Prod.ext (by ring) (by ring)

/-- C4 witness: the amended theorem instantiated at `n = 2`, jitter
sample 1/2, and storage retry count 1. -/
theorem c4_backoff_amended_witness :
    adoRetryWait 1 (1 / 2) ≤ min (4 * 2 ^ (0 : ℕ) + 1) 10 ∧
    adoRetryWait 1 1 = min (4 * 2 ^ (0 : ℕ) + 1) 10 ∧
    storageBackoffRange 1 = (7 + 4 ^ 1, 13 + 4 ^ 1) :=
  ⟨(c4_backoff_amended 2 (by norm_num)).1 (1 / 2) (by norm_num) (by norm_num),
   (c4_backoff_amended 2 (by norm_num)).2.1,
   (c4_backoff_amended 2 (by norm_num)).2.2 1 (by norm_num)⟩

set_option maxRecDepth 40000 in
/-- C5 counterexample: both timestamps below are valid ISO-8601 and
`min_time` is strictly later than `max_time` (by one year), yet
construction of `PullRequestQueryParameters` succeeds — the validator
checks only parseability and never compares the two fields. -/
theorem c5_no_ordering_check_counterexample :
    laterThanISO "2025-01-01T00:00:00Z" "2024-01-01T00:00:00Z" = true ∧
    exceptOk (mkPullRequestQueryParameters 1000
      "2025-01-01T00:00:00Z" "2024-01-01T00:00:00Z") = true := by
  constructor <;> decide

/-- C5 amended: construction of `PullRequestQueryParameters` succeeds
exactly when both `min_time` and `max_time` parse as ISO-8601; failures
happen at construction, before any request is built, but no ordering
between the two timestamps is enforced. -/
theorem c5_construction_iff_parse (top : Int) (mn mx : String) :
    exceptOk (mkPullRequestQueryParameters top mn mx) = true ↔
    (isoparse mn).isSome ∧ (isoparse mx).isSome := by
  unfold mkPullRequestQueryParameters
  cases h1 : isoparse mn <;> cases h2 : isoparse mx <;>
    simp [exceptOk, h1, h2]

/-- C6: a raw configuration missing a required field, or whose endpoint
is not a valid HTTP URL, fails validation with a pydantic error list that
names each offending field (and, for a malformed URL, carries the
offending input); the validator is a pure function, and the transport
session is only created after validation succeeds. -/
theorem c6_invalid_config_rejected (raw : RawAdoConfig)
    (h : raw.base_address = none ∨ raw.organization_name = none ∨
      raw.personal_access_token = none ∨
      ∃ u, raw.base_address = some u ∧ isValidHttpUrl u = false) :
    validateAdoServiceConfiguration raw = .error (configFieldErrors raw) ∧
    configFieldErrors raw ≠ [] ∧
    (raw.base_address = none →
      ConfigFieldError.missing "base_address" ∈ configFieldErrors raw) ∧
    (raw.organization_name = none →
      ConfigFieldError.missing "organization_name" ∈ configFieldErrors raw) ∧
    (raw.personal_access_token = none →
      ConfigFieldError.missing "personal_access_token" ∈ configFieldErrors raw) ∧
    (∀ u, raw.base_address = some u → isValidHttpUrl u = false →
      ConfigFieldError.invalidUrl "base_address" u ∈ configFieldErrors raw) := by
  obtain ⟨b, o, p, t⟩ := raw
  cases b with
  | none =>
      cases o <;> cases p <;>
        simp [validateAdoServiceConfiguration, configFieldErrors]
  | some u =>
      cases hu : isValidHttpUrl u with
      | true =>
          rcases h with h | h | h | ⟨u', hu', hvu'⟩
          · cases h
          · cases o with
            | none =>
                cases p <;>
                  simp [validateAdoServiceConfiguration, configFieldErrors, hu]
            | some _ => cases h
          · cases p with
            | none =>
                cases o <;>
                  simp [validateAdoServiceConfiguration, configFieldErrors, hu]
            | some _ => cases h
          · injection hu' with h'
            rw [← h'] at hvu'
            rw [hu] at hvu'
            cases hvu'
      | false =>
          cases o <;> cases p <;>
            simp [validateAdoServiceConfiguration, configFieldErrors, hu]

/-- C6 witness: the theorem evaluated at the raw configuration with all
fields absent. -/
theorem c6_invalid_config_rejected_witness :
    validateAdoServiceConfiguration ⟨none, none, none, none⟩
        = .error (configFieldErrors ⟨none, none, none, none⟩) ∧
    configFieldErrors ⟨none, none, none, none⟩ ≠ [] ∧
    ((none : Option String) = none →
      ConfigFieldError.missing "base_address"
        ∈ configFieldErrors ⟨none, none, none, none⟩) ∧
    ((none : Option String) = none →
      ConfigFieldError.missing "organization_name"
        ∈ configFieldErrors ⟨none, none, none, none⟩) ∧
    ((none : Option String) = none →
      ConfigFieldError.missing "personal_access_token"
        ∈ configFieldErrors ⟨none, none, none, none⟩) ∧
    (∀ u, (none : Option String) = some u → isValidHttpUrl u = false →
      ConfigFieldError.invalidUrl "base_address" u
        ∈ configFieldErrors ⟨none, none, none, none⟩) :=
  c6_invalid_config_rejected ⟨none, none, none, none⟩ (Or.inl rfl)

/-- C7 counterexample: a response with the 2xx status 201 and a
parseable body is not returned as success — the code accepts only status
200, so 201 is classified as a request failure carrying its status. -/
theorem c7_status_2xx_counterexample :
    makeRequestAttempt (.response 201 (.ok "x"))
      = .error (.adoServiceError "ADO REST API request failed with status: 201") :=
  rfl

/-- C7 amended: only a response with status exactly 200 and a decoded
body is returned as success; every status other than 200, 203 and 404 —
including the other 2xx statuses — is classified as
`RequestFailed{status}` (`AdoServiceError` with the status in its
message). -/
theorem c7_only_200_success (status : Nat) (body : String)
    (j : Except PyExc String)
    (h200 : status ≠ 200) (h203 : status ≠ 203) (h404 : status ≠ 404) :
    makeRequestAttempt (.response status j)
        = .error (.adoServiceError (adoHttpRequestFailedMsg status)) ∧
    makeRequestAttempt (.response 200 (.ok body)) = .ok body := by
  constructor
  · simp [makeRequestAttempt, tryBody, h200, h203, h404, exceptClauses,
      PyExc.isClientResponseError, PyExc.isClientConnectionError,
      PyExc.isServerTimeoutError, PyExc.isClientError]
  · rfl

/-- C7 witness: the amended theorem evaluated at status 500. -/
theorem c7_only_200_success_witness :
    makeRequestAttempt (.response 500 (.ok "x"))
        = .error (.adoServiceError (adoHttpRequestFailedMsg 500)) ∧
    makeRequestAttempt (.response 200 (.ok "b")) = .ok "b" :=
  c7_only_200_success 500 "b" (.ok "x") (by decide) (by decide) (by decide)

/-- C8: uploading into an existing container performs zero
container-creation calls and returns a receipt; uploading into an absent
container creates it (exactly one creation call) and the blob is then
present with the uploaded content — overwrite semantics in both cases. -/
theorem c8_upload_semantics (st : StorageState) (ctx : BlobUploadContext) :
    (st.containers.contains ctx.container_name = true →
      (upload_string st ctx).2.1.createContainerCalls = 0) ∧
    (st.containers.contains ctx.container_name = false →
      (upload_string st ctx).2.1.createContainerCalls = 1 ∧
      (upload_string st ctx).1.containers.contains ctx.container_name = true) ∧
    (upload_string st ctx).2.2 = "upload-receipt" ∧
    (upload_string st ctx).1.getBlob ctx.container_name ctx.blob_name
      = some ctx.content := by
  cases h : st.containers.contains ctx.container_name with
  | true =>
      have hm : ctx.container_name ∈ st.containers := by simpa using h
      simp [upload_string, h, hm, StorageState.getBlob, List.find?]
  | false =>
      have hm : ctx.container_name ∉ st.containers := by simpa using h
      simp [upload_string, h, hm, StorageState.getBlob, List.find?]

/-- C8 witness: upload into the existing container `c` creates nothing;
upload into an empty store creates the container and stores the blob. -/
theorem c8_upload_semantics_witness :
    (upload_string ⟨["c"], []⟩ ⟨"x", "b", "c"⟩).2.1.createContainerCalls = 0 ∧
    (upload_string ⟨[], []⟩ ⟨"x", "b", "c"⟩).2.1.createContainerCalls = 1 ∧
    (upload_string ⟨[], []⟩ ⟨"x", "b", "c"⟩).1.getBlob "c" "b" = some "x" :=
  ⟨(c8_upload_semantics ⟨["c"], []⟩ ⟨"x", "b", "c"⟩).1 (by decide),
   ((c8_upload_semantics ⟨[], []⟩ ⟨"x", "b", "c"⟩).2.1 (by decide)).1,
   (c8_upload_semantics ⟨[], []⟩ ⟨"x", "b", "c"⟩).2.2.2⟩

/-- C9: `list_blobs` with an absent container identifier raises
`StorageServiceArgumentError` with the missing-container message before
any remote listing call (zero fetches); with a present identifier it
yields exactly the remote service's items in the service's order. -/
theorem c9_list_blobs_behaviour (remote : String → List String) :
    list_blobs remote none
        = (.error (.storageServiceArgumentError MISSING_CONTAINER_NAME), 0) ∧
    ∀ c, (list_blobs remote (some c)).1 = .ok (remote c) ∧
      (list_blobs remote (some c)).2 = 1 :=
  ⟨rfl, fun _ => ⟨rfl, rfl⟩⟩

/-- C10: the per-request total timeout of `_make_request` — used by both
`get_projects` and `get_pull_requests` — is the constant 10 seconds for
every configuration, and when `http_timeout` is configured below 10 the
per-request timeout exceeds the session default. -/
theorem c10_fixed_per_request_timeout (config : AdoServiceConfiguration) :
    perRequestTimeout config = 10 ∧
    (config.http_timeout < 10 →
      sessionDefaultTimeout config < perRequestTimeout config) :=
  ⟨rfl, fun h => h⟩

/-- C10 witness: the theorem at a configuration with `http_timeout` 5. -/
theorem c10_fixed_per_request_timeout_witness :
    sessionDefaultTimeout ⟨"https://dev.example.org", "acme", "abc", 5⟩
      < perRequestTimeout ⟨"https://dev.example.org", "acme", "abc", 5⟩ :=
  (c10_fixed_per_request_timeout
    ⟨"https://dev.example.org", "acme", "abc", 5⟩).2 (by decide)

end Spec2Proof
